import Mathlib

/-!
Verification of the platooning simulation core.

The definitions below are a shallow embedding of the Python sources:
- `src/core/verified_controller.py`  (namespace `Core`)
- `src/core/safety_monitor.py`       (namespace `Monitor`)
- `src/simulation/enhanced_environment.py` (namespace `Sim`)

Floating-point values of the source are modelled as rationals (`ℚ`).
Python's binary `max`/`min` are modelled by the executable `pymax`/`pymin`
below (extensionally equal to Mathlib's `max`/`min`, see `pymax_eq_max`).
Presentation-only vehicle fields (`color`, `symbol`) are not modelled;
nothing in the control or safety logic reads them.
-/

/-- Python's binary `max` on numbers. -/
def pymax (a b : ℚ) : ℚ := if a < b then b else a

/-- Python's binary `min` on numbers. -/
def pymin (a b : ℚ) : ℚ := if b < a then b else a

/-- Python's `abs` on numbers. -/
def pyabs (a : ℚ) : ℚ := if a < 0 then -a else a

/-- `np.clip(x, lo, hi)` for `lo ≤ hi`: clamp `x` into `[lo, hi]`. -/
def clip (x lo hi : ℚ) : ℚ := pymax lo (pymin x hi)

namespace Core

/-- `SafetyParameters` dataclass of `verified_controller.py`, with its defaults. -/
structure SafetyParameters where
  max_deceleration : ℚ := 4
  max_acceleration : ℚ := 2
  min_safe_distance : ℚ := 3
  reaction_time : ℚ := 1/5
  sensor_error_bound : ℚ := 1/10
  communication_delay : ℚ := 1/10
deriving DecidableEq

/-- The default parameter set used by `FormalPlatooningController.__init__`. -/
def defaultParams : SafetyParameters := {}

/-- `FormalPlatooningController._calculate_safe_distance`. -/
def calculate_safe_distance (p : SafetyParameters) (v_ego v_pred : ℚ) : ℚ :=
  let d_reaction := v_ego * p.reaction_time
  let d_stop_ego := (v_ego ^ 2) / (2 * p.max_deceleration)
  let d_stop_pred := (v_pred ^ 2) / (2 * p.max_deceleration)
  let d_stopping := pymax 0 (d_stop_ego - d_stop_pred)
  d_reaction + d_stopping + p.min_safe_distance

end Core

namespace Monitor

/-- `SafetyMonitor._calculate_safe_distance`, with its hard-coded constants
`reaction_time = 0.2`, `max_decel = 4.0`, `min_distance = 3.0`. -/
def calculate_safe_distance (v_ego v_pred : ℚ) : ℚ :=
  let reaction_time : ℚ := 1/5
  let max_decel : ℚ := 4
  let min_distance : ℚ := 3
  let d_reaction := v_ego * reaction_time
  let d_stop_ego := (v_ego ^ 2) / (2 * max_decel)
  let d_stop_pred := (v_pred ^ 2) / (2 * max_decel)
  let d_stopping := pymax 0 (d_stop_ego - d_stop_pred)
  d_reaction + d_stopping + min_distance

end Monitor

namespace Sim

/-- `VehicleRole` enum of `enhanced_environment.py`. -/
inductive VehicleRole | leader | follower | priority
deriving DecidableEq

/-- `Lane` enum; `laneValue` gives the numeric `.value` (RIGHT=0, MIDDLE=1, LEFT=2). -/
inductive Lane | right | middle | left
deriving DecidableEq

/-- `.value` of a `Lane` enum member. -/
def laneValue : Lane → ℚ
  | .right => 0
  | .middle => 1
  | .left => 2

/-- `VehicleType` enum. -/
inductive VehicleType | normal | ambulance | emergency_type
deriving DecidableEq

/-- `EnhancedVehicle._get_lane_center_y` (same table in the controller). -/
def lane_center_y : Lane → ℚ
  | .right => -4
  | .middle => 0
  | .left => 4

/-- `self.length = 4.5`, identical for every `EnhancedVehicle`. -/
def vehicleLength : ℚ := 9/2

/-- `self.width = 1.8`, identical for every `EnhancedVehicle`. -/
def vehicleWidth : ℚ := 9/5

/-- `self.lane_change_speed = 2.0`, identical for every `EnhancedVehicle`. -/
def laneChangeSpeed : ℚ := 2

/-- Mutable state of an `EnhancedVehicle` (presentation fields omitted). -/
structure Vehicle where
  id : String
  role : VehicleRole
  vehicle_type : VehicleType
  lane : Lane
  lane_target_y : ℚ
  x : ℚ
  y : ℚ
  velocity : ℚ
  acceleration : ℚ
  is_changing_lane : Bool
  lane_change_progress : ℚ
  previous_lane : Lane
  emergency_braking : Bool
  emergency_start_time : ℚ
deriving DecidableEq

/-- `EnhancedVehicleAction` dataclass. -/
structure Action where
  acceleration : ℚ
  target_lane : Option Lane := none
  emergency : Bool := false
  reason : String := ""
  priority_override : Bool := false
deriving DecidableEq

/-- Controller constant `self.safe_time_gap = 2.5`. -/
def safeTimeGap : ℚ := 5/2
/-- Controller constant `self.min_distance = 10.0`. -/
def minDistance : ℚ := 10
/-- Controller constant `self.max_acceleration = 2.0`. -/
def maxAcceleration : ℚ := 2
/-- Controller constant `self.max_braking = -6.0`. -/
def maxBraking : ℚ := -6

/-- `EnhancedPlatooningController._calculate_safe_distance`.  The Python method
takes `relative_velocity` as argument but ignores it, reading the controlled
vehicle's own velocity instead. -/
def calculate_safe_distance (ego_velocity relative_velocity : ℚ) : ℚ :=
  minDistance + pymax 0 ego_velocity * safeTimeGap

/-- `EnhancedPlatooningController._find_closest_vehicle`.  Returns the vehicle
ahead (positive bumper distance, lateral distance `< 4.0`) with minimal
distance, together with that distance and the relative velocity; `none` when no
vehicle qualifies (the Python function then returns `(None, inf, 0.0)` and all
callers test the vehicle for `None` before using the numbers). -/
def find_closest_vehicle (ego : Vehicle) (vs : List Vehicle) :
    Option (Vehicle × ℚ × ℚ) :=
  vs.foldl (fun acc w =>
    if w.id = ego.id then acc
    else
      match acc with
      | none =>
        if pyabs (w.y - ego.y) < 4 ∧ 0 < w.x - ego.x - vehicleLength then
          some (w, w.x - ego.x - vehicleLength, w.velocity - ego.velocity)
        else none
      | some (c, dmin, rv) =>
        if pyabs (w.y - ego.y) < 4 ∧ 0 < w.x - ego.x - vehicleLength ∧
            w.x - ego.x - vehicleLength < dmin then
          some (w, w.x - ego.x - vehicleLength, w.velocity - ego.velocity)
        else some (c, dmin, rv)) none

/-- `EnhancedPlatooningController._get_adjacent_lanes`. -/
def get_adjacent_lanes : Lane → List Lane
  | .right => [.middle]
  | .middle => [.left, .right]
  | .left => [.middle]

/-- `EnhancedPlatooningController._is_lane_clear_for_emergency`. -/
def is_lane_clear_for_emergency (ego : Vehicle) (target : Lane)
    (vs : List Vehicle) : Bool :=
  vs.all fun w =>
    w.id = ego.id ∨
      ¬(pyabs (w.y - lane_center_y target) < 5/2 ∧ pyabs (w.x - ego.x) < 20)

/-- `EnhancedPlatooningController._evaluate_emergency_lane_change` (its
`current_distance` and `safe_distance` parameters are unused in the source). -/
def evaluate_emergency_lane_change (ego : Vehicle) (vs : List Vehicle) :
    Option Lane :=
  if ego.is_changing_lane then none
  else (get_adjacent_lanes ego.lane).find? (fun l =>
    is_lane_clear_for_emergency ego l vs)

/-- `EnhancedPlatooningController._check_emergency_ahead`. -/
def check_emergency_ahead (ego : Vehicle) (vs : List Vehicle)
    (current_time : ℚ) : Option Action :=
  match find_closest_vehicle ego vs with
  | none => none
  | some (closest, distance, relative_velocity) =>
    if closest.emergency_braking then
      let safe_distance := calculate_safe_distance ego.velocity relative_velocity
      let time_since_emergency := current_time - closest.emergency_start_time
      let reaction_multiplier : ℚ := if time_since_emergency < 1 then 2 else 1
      if distance < safe_distance * (3/2) then
        match evaluate_emergency_lane_change ego vs with
        | some target =>
          some { acceleration := -4, target_lane := some target, emergency := true,
                 reason := "Emergency lane change! " ++ closest.id ++ " braking" }
        | none =>
          some { acceleration := pymin maxBraking (-6 * reaction_multiplier),
                 emergency := true,
                 reason := "EMERGENCY! " ++ closest.id ++ " braking hard!" }
      else none
    else none

/-- `EnhancedPlatooningController._is_lane_clear` (normal overtaking check). -/
def is_lane_clear (ego : Vehicle) (target : Lane) (vs : List Vehicle) : Bool :=
  vs.all fun w =>
    w.id = ego.id ∨
      ¬(pyabs (w.y - lane_center_y target) < 11/5 ∧
        pyabs (w.x - ego.x) <
          calculate_safe_distance ego.velocity (w.velocity - ego.velocity) * (9/5))

/-- `EnhancedPlatooningController._evaluate_lane_change`. -/
def evaluate_lane_change (ego : Vehicle) (vs : List Vehicle)
    (current_distance safe_distance : ℚ) : Option Lane :=
  if ego.is_changing_lane ∨ current_distance > safe_distance * (4/5) then none
  else (get_adjacent_lanes ego.lane).find? (fun l => is_lane_clear ego l vs)

/-- `EnhancedPlatooningController._compute_priority_action`. -/
def compute_priority_action (ego : Vehicle) (vs : List Vehicle) : Action :=
  let target_velocity : ℚ := 25
  let maintain : Action :=
    { acceleration := clip ((target_velocity - ego.velocity) * (3/10)) (-3/2) (3/2),
      reason := "Priority vehicle maintaining speed" }
  match find_closest_vehicle ego vs with
  | none => maintain
  | some (closest, distance, relative_velocity) =>
    let safe_distance := calculate_safe_distance ego.velocity relative_velocity
    if distance < safe_distance * (6/5) then
      match evaluate_lane_change ego vs distance safe_distance with
      | some target =>
        { acceleration := 1, target_lane := some target,
          reason := "Overtaking " ++ closest.id }
      | none =>
        { acceleration := clip ((distance - safe_distance) * (1/10)) (-2) 0,
          reason := "Following " ++ closest.id }
    else maintain

/-- `EnhancedPlatooningController._find_priority_vehicle`. -/
def find_priority_vehicle (ego : Vehicle) (vs : List Vehicle) : Option Vehicle :=
  vs.find? fun w => w.role = VehicleRole.priority ∧ w.id ≠ ego.id

/-- Stable insertion of `x` into `l` by sort key (Python `list.sort(key=...)`
is stable; `x` goes before later elements of equal key). -/
def insertByKey (key : Lane → ℚ) (x : Lane) : List Lane → List Lane
  | [] => [x]
  | y :: ys => if key x ≤ key y then x :: y :: ys else y :: insertByKey key x ys

/-- Stable sort by key, modelling Python's `list.sort(key=...)`. -/
def sortByKey (key : Lane → ℚ) : List Lane → List Lane
  | [] => []
  | x :: xs => insertByKey key x (sortByKey key xs)

/-- `EnhancedPlatooningController._is_lane_clear_for_yield`. -/
def is_lane_clear_for_yield (ego : Vehicle) (target : Lane)
    (vs : List Vehicle) : Bool :=
  vs.all fun w =>
    w.id = ego.id ∨
      ¬(pyabs (w.y - lane_center_y target) < 14/5 ∧
        ((0 < w.x - ego.x ∧ w.x - ego.x < 25) ∨
         (w.x - ego.x < 0 ∧ pyabs (w.x - ego.x) < 15)))

/-- `EnhancedPlatooningController._find_yield_lane`.  The candidate list is
sorted (stably) by distance of the lane's numeric value from the priority
vehicle's current lane value. -/
def find_yield_lane (ego : Vehicle) (vs : List Vehicle) : Option Lane :=
  let adjacent := get_adjacent_lanes ego.lane
  let sorted :=
    match find_priority_vehicle ego vs with
    | some p => sortByKey (fun l => pyabs (laneValue l - laneValue p.lane)) adjacent
    | none => adjacent
  sorted.find? (fun l => is_lane_clear_for_yield ego l vs)

/-- The per-vehicle condition of `_check_priority_yield`: a priority vehicle
behind the ego vehicle, within 50 m, laterally within 3.5 m, and faster. -/
def yieldTrigger (ego w : Vehicle) : Prop :=
  w.id ≠ ego.id ∧ w.role = VehicleRole.priority ∧
  0 < ego.x - w.x ∧ ego.x - w.x < 50 ∧
  pyabs (w.y - ego.y) < 7/2 ∧ ego.velocity < w.velocity

instance (ego w : Vehicle) : Decidable (yieldTrigger ego w) := by
  unfold yieldTrigger; infer_instance

/-- `EnhancedPlatooningController._check_priority_yield`: the first vehicle (in
iteration order) matching `yieldTrigger` produces the yield action. -/
def check_priority_yield (ego : Vehicle) (vs : List Vehicle) : Option Action :=
  match vs.find? (fun w => yieldTrigger ego w) with
  | none => none
  | some w =>
    match find_yield_lane ego vs with
    | some target =>
      if target ≠ ego.lane then
        some { acceleration := -1, target_lane := some target,
               priority_override := true,
               reason := "Yielding to priority vehicle " ++ w.id }
      else
        some { acceleration := -3, priority_override := true,
               reason := "Making space for priority vehicle " ++ w.id }
    | none =>
      some { acceleration := -3, priority_override := true,
             reason := "Making space for priority vehicle " ++ w.id }

/-- `EnhancedPlatooningController._compute_leader_action`. -/
def compute_leader_action (ego : Vehicle) : Action :=
  { acceleration := clip ((20 - ego.velocity) * (1/5)) (-1) 1,
    reason := "Leader maintaining speed" }

/-- `EnhancedPlatooningController._compute_follower_action`.  The source first
re-runs the priority-yield check, then applies the hysteresis following law. -/
def compute_follower_action (ego : Vehicle) (vs : List Vehicle) : Action :=
  match check_priority_yield ego vs with
  | some a => a
  | none =>
    match find_closest_vehicle ego vs with
    | none => { acceleration := 0, reason := "No vehicle ahead" }
    | some (closest, distance, relative_velocity) =>
      let safe_distance := calculate_safe_distance ego.velocity relative_velocity
      if distance < safe_distance * (9/10) then
        { acceleration := clip ((distance - safe_distance) * (3/10)) maxBraking 0,
          reason := "Maintaining distance to " ++ closest.id }
      else if distance > safe_distance * (13/10) then
        { acceleration := clip ((distance - safe_distance) * (1/20)) 0 maxAcceleration,
          reason := "Closing gap to " ++ closest.id }
      else
        { acceleration := 0, reason := "Maintaining distance to " ++ closest.id }

/-- `EnhancedPlatooningController.compute_action`: emergency-ahead check, then
priority self-action, then yield-to-priority, then role default. -/
def compute_action (ego : Vehicle) (vs : List Vehicle) (current_time : ℚ) :
    Action :=
  match check_emergency_ahead ego vs current_time with
  | some a => a
  | none =>
    if ego.role = VehicleRole.priority then compute_priority_action ego vs
    else
      match check_priority_yield ego vs with
      | some a => a
      | none =>
        if ego.role = VehicleRole.leader then compute_leader_action ego
        else compute_follower_action ego vs

end Sim

/-- Test fixture: a plain follower vehicle in the middle lane. -/
def baseVehicle : Sim.Vehicle :=
  { id := "vehicle_0", role := Sim.VehicleRole.follower,
    vehicle_type := Sim.VehicleType.normal, lane := Sim.Lane.middle,
    lane_target_y := 0, x := 0, y := 0, velocity := 20, acceleration := 0,
    is_changing_lane := false, lane_change_progress := 0,
    previous_lane := Sim.Lane.middle, emergency_braking := false,
    emergency_start_time := 0 }

/-- Test fixture: ego vehicle of the emergency-ahead scenario. -/
def egoE : Sim.Vehicle := { baseVehicle with id := "e" }

/-- Test fixture: an emergency-braking vehicle 20 m ahead of `egoE`. -/
def brakerE : Sim.Vehicle :=
  { baseVehicle with
    id := "w", x := 20, velocity := 5,
    acceleration := -8, emergency_braking := true }

/-- Test fixture: ego vehicle of the yield scenario. -/
def egoY : Sim.Vehicle := { baseVehicle with id := "f", x := 70 }

/-- Test fixture: a faster priority vehicle 20 m behind `egoY`. -/
def priY : Sim.Vehicle :=
  { baseVehicle with
    id := "p", x := 50, velocity := 22,
    role := Sim.VehicleRole.priority,
    vehicle_type := Sim.VehicleType.ambulance }

/-- Test fixture: ego vehicle of the hysteresis-band scenario. -/
def egoG : Sim.Vehicle := { baseVehicle with id := "g" }

/-- Test fixture: a vehicle 60 m ahead of `egoG`, inside the hysteresis band. -/
def aheadH : Sim.Vehicle := { baseVehicle with id := "h", x := 60 }

namespace Sim

/-- `EnhancedVehicle.update_position`: integrate velocity (clamped into
`[0, 30]`) and position, then advance a lane change in progress. -/
def update_position (dt : ℚ) (v : Vehicle) : Vehicle :=
  let velocity := pymax 0 (pymin (v.velocity + v.acceleration * dt) 30)
  let x := v.x + velocity * dt
  if v.is_changing_lane then
    let progress := v.lane_change_progress + laneChangeSpeed * dt
    if progress ≥ 1 then
      { v with velocity := velocity, x := x, is_changing_lane := false,
               lane_change_progress := 0, y := v.lane_target_y }
    else
      { v with velocity := velocity, x := x, lane_change_progress := progress,
               y := lane_center_y v.previous_lane +
                    (v.lane_target_y - lane_center_y v.previous_lane) * progress }
  else
    { v with velocity := velocity, x := x }

/-- `EnhancedVehicle.initiate_lane_change`: a no-op while a change is in
progress or when the target equals the current lane. -/
def initiate_lane_change (v : Vehicle) (target : Lane) : Vehicle :=
  if ¬v.is_changing_lane ∧ target ≠ v.lane then
    { v with previous_lane := v.lane, lane := target,
             lane_target_y := lane_center_y target,
             is_changing_lane := true, lane_change_progress := 0 }
  else v

/-- `EnhancedVehicle.trigger_emergency_braking`. -/
def trigger_emergency_braking (v : Vehicle) (current_time : ℚ) : Vehicle :=
  { v with emergency_braking := true, emergency_start_time := current_time,
           acceleration := -8 }

/-- The bounding-box overlap test of `_check_collisions` (margin `0.3`),
`get_bounding_box` inlined. -/
def vehiclesOverlap (v1 v2 : Vehicle) : Bool :=
  let margin : ℚ := 3/10
  let x_overlap :=
    decide (v1.x - vehicleLength/2 - margin < v2.x + vehicleLength/2 + margin) &&
    decide (v1.x + vehicleLength/2 + margin > v2.x - vehicleLength/2 - margin)
  let y_overlap :=
    decide (v1.y - vehicleWidth/2 - margin < v2.y + vehicleWidth/2 + margin) &&
    decide (v1.y + vehicleWidth/2 + margin > v2.y - vehicleWidth/2 - margin)
  x_overlap && y_overlap

/-- `EnhancedPlatooningSimulation._check_collisions`: every unordered pair (in
iteration order) whose padded bounding boxes overlap on both axes. -/
def check_collisions : List Vehicle → List (String × String)
  | [] => []
  | v :: rest =>
    (rest.filter (fun w => vehiclesOverlap v w)).map (fun w => (v.id, w.id)) ++
      check_collisions rest

/-- The per-vehicle mutation inside the controller loop of `step`: store the
action's acceleration and initiate a lane change when a different target lane
was requested. -/
def apply_action (v : Vehicle) (a : Action) : Vehicle :=
  let v1 := { v with acceleration := a.acceleration }
  match a.target_lane with
  | some target => if target ≠ v1.lane then initiate_lane_change v1 target else v1
  | none => v1

/-- The controller loop of `step`, parameterized by the iteration order over
controllers.  Because the Python "snapshot" dictionary stores references to the
live vehicle objects, each controller reads the vehicle list as already mutated
by the controllers that ran before it in the same tick. -/
def controller_loop (t : ℚ) (vs : List Vehicle) :
    List String → List (String × Action) × List Vehicle
  | [] => ([], vs)
  | vid :: rest =>
    match vs.find? (fun v => v.id = vid) with
    | some ego =>
      let a := compute_action ego vs t
      let vs1 := vs.map (fun w => if w.id = vid then apply_action w a else w)
      let p := controller_loop t vs1 rest
      ((vid, a) :: p.1, p.2)
    | none => controller_loop t vs rest

/-- One entry of `self.history`. -/
structure StepRecord where
  time : ℚ
  vehicles : List Vehicle
  actions : List (String × Action)
  collisions : List (String × String)
deriving DecidableEq

/-- State of an `EnhancedPlatooningSimulation` (vehicle dictionary modelled as
an insertion-ordered association list). -/
structure SimState where
  dt : ℚ
  time : ℚ
  vehicles : List Vehicle
  history : List StepRecord
  emergency_vehicle : Option String
  priority_vehicle : Option String
  emergency_triggered : Bool
  priority_added : Bool
deriving DecidableEq

/-- The `StepRecord` appended by one call to `step()`:  run every controller in
dictionary order, integrate all positions, then detect collisions. -/
def step_record (s : SimState) : StepRecord :=
  let p := controller_loop s.time s.vehicles (s.vehicles.map (fun v => v.id))
  let updated := p.2.map (update_position s.dt)
  { time := s.time, vehicles := updated, actions := p.1,
    collisions := check_collisions updated }

/-- `EnhancedPlatooningSimulation.step`. -/
def step (s : SimState) : SimState :=
  { s with vehicles := (step_record s).vehicles,
           history := s.history ++ [step_record s],
           time := s.time + s.dt }

/-- `EnhancedPlatooningSimulation.set_priority_vehicle`: assigns the priority
role at most once (presentation-only colour/symbol updates omitted). -/
def set_priority_vehicle (s : SimState) (vehicle_id : String) : SimState :=
  if (s.vehicles.any (fun v => v.id = vehicle_id)) && !s.priority_added then
    { s with
      vehicles := s.vehicles.map (fun v =>
        if v.id = vehicle_id then
          { v with role := VehicleRole.priority,
                   vehicle_type := VehicleType.ambulance }
        else v),
      priority_vehicle := some vehicle_id,
      priority_added := true }
  else s

/-- `EnhancedPlatooningSimulation.trigger_emergency`.  Returns the Python return
value together with the new state; `none` models the `KeyError` crash when the
designated vehicle id is not in the vehicle dictionary (unreachable through
`set_emergency_vehicle`, which checks membership). -/
def trigger_emergency (s : SimState) : Option (Bool × SimState) :=
  if (s.emergency_vehicle.elim false (fun vid => vid != "")) &&
      !s.emergency_triggered then
    match s.emergency_vehicle with
    | some vid =>
      match s.vehicles.find? (fun v => v.id = vid) with
      | some _ =>
        some (true,
          { s with
            vehicles := s.vehicles.map (fun v =>
              if v.id = vid then trigger_emergency_braking v s.time else v),
            emergency_triggered := true })
      | none => none
    | none => none
  else some (false, s)

/-- Projection to the vehicle fields the controller loop never writes. -/
def controlProj (v : Vehicle) : String × ℚ × ℚ × ℚ × Bool × ℚ :=
  (v.id, v.x, v.y, v.velocity, v.emergency_braking, v.emergency_start_time)

/-- Projection to the emergency-braking fields (and id). -/
def emergencyProj (v : Vehicle) : String × Bool × ℚ :=
  (v.id, v.emergency_braking, v.emergency_start_time)

/-- Restriction of `controlProj` to the emergency fields. -/
def controlToEmergency (p : String × ℚ × ℚ × ℚ × Bool × ℚ) :
    String × Bool × ℚ :=
  (p.1, p.2.2.2.2.1, p.2.2.2.2.2)

/-- Projection to longitudinal position and velocity. -/
def posVel (v : Vehicle) : ℚ × ℚ := (v.x, v.velocity)

/-- Restriction of `controlProj` to position and velocity. -/
def controlToPosVel (p : String × ℚ × ℚ × ℚ × Bool × ℚ) : ℚ × ℚ :=
  (p.2.1, p.2.2.2.1)

/-- "Maintained safe gap" for one ordered pair, as a function of longitudinal
position and velocity only: the rear vehicle's front bumper is at least the
core safe distance behind the front vehicle's position. -/
def gapSafePair (p q : ℚ × ℚ) : Prop :=
  p.1 + vehicleLength +
      Core.calculate_safe_distance Core.defaultParams p.2 q.2 ≤ q.1 ∨
  q.1 + vehicleLength +
      Core.calculate_safe_distance Core.defaultParams q.2 p.2 ≤ p.1

instance (p q : ℚ × ℚ) : Decidable (gapSafePair p q) := by
  unfold gapSafePair; infer_instance

/-- "Maintained safe gap" between two vehicles. -/
def gapSafe (a b : Vehicle) : Prop := gapSafePair (a.x, a.velocity) (b.x, b.velocity)

instance (a b : Vehicle) : Decidable (gapSafe a b) := by
  unfold gapSafe; infer_instance

end Sim

/-- Test fixture: a vehicle halfway through a lane change from middle to left. -/
def vC : Sim.Vehicle :=
  { baseVehicle with
    is_changing_lane := true, lane_change_progress := 1/2,
    lane := Sim.Lane.left, previous_lane := Sim.Lane.middle,
    lane_target_y := 4 }

/-- Test fixture: a one-vehicle simulation state. -/
def simS0 : Sim.SimState :=
  { dt := 1/10, time := 0, vehicles := [egoG], history := [],
    emergency_vehicle := none, priority_vehicle := none,
    emergency_triggered := false, priority_added := false }

/-- Test fixture: `egoG` after one tick of `simS0` (moved 2 m at 20 m/s). -/
def wG : Sim.Vehicle := { baseVehicle with id := "g", x := 2 }

/-- Test fixture: `simS0` with `"g"` designated as emergency vehicle. -/
def simE0 : Sim.SimState := { simS0 with emergency_vehicle := some "g" }

/-- Test fixture: `egoG` after its emergency braking was triggered at time 0. -/
def egoGbraked : Sim.Vehicle :=
  { baseVehicle with
    id := "g", acceleration := -8, emergency_braking := true }

/-- Test fixture: `simE0` after the first successful `trigger_emergency()`. -/
def simE1 : Sim.SimState :=
  { simE0 with vehicles := [egoGbraked], emergency_triggered := true }

/-- Test fixture: a follower parked in the left lane behind `egoY`, blocking
the priority vehicle's left-overtake but not `egoY`'s yield checks. -/
def bC3 : Sim.Vehicle :=
  { baseVehicle with
    id := "b", x := 40, y := 4,
    lane := Sim.Lane.left, previous_lane := Sim.Lane.left,
    lane_target_y := 4 }

/-- Test fixture: a stationary follower at the origin. -/
def cxRear : Sim.Vehicle := { baseVehicle with id := "r", velocity := 0 }

/-- Test fixture: a stationary leader 3 m (centre to centre) ahead of `cxRear`. -/
def cxFront : Sim.Vehicle :=
  { baseVehicle with
    id := "q", x := 3, velocity := 0, role := Sim.VehicleRole.leader }

/-- Test fixture: two-vehicle simulation already closer than one car length. -/
def simC4 : Sim.SimState :=
  { dt := 1/10, time := 0, vehicles := [cxRear, cxFront], history := [],
    emergency_vehicle := none, priority_vehicle := none,
    emergency_triggered := false, priority_added := false }

/-- Test fixture: a leader 100 m ahead of `baseVehicle`, gap well maintained. -/
def swFront : Sim.Vehicle :=
  { baseVehicle with id := "vehicle_1", x := 100, role := Sim.VehicleRole.leader }

/-- Test fixture: two-vehicle simulation with amply maintained safe gaps. -/
def simW4 : Sim.SimState :=
  { dt := 1/10, time := 0, vehicles := [baseVehicle, swFront], history := [],
    emergency_vehicle := none, priority_vehicle := none,
    emergency_triggered := false, priority_added := false }

theorem pymax_eq_max (a b : ℚ) : pymax a b = max a b := by
  unfold pymax
  rcases lt_trichotomy a b with h | h | h
  · simp [h, max_eq_right h.le]
  · simp [h]
  · simp [not_lt_of_gt h, max_eq_left h.le]

theorem pyabs_eq_abs (a : ℚ) : pyabs a = |a| := by
  unfold pyabs
  rcases lt_trichotomy a 0 with h | h | h
  · simp [h, abs_of_neg h]
  · simp [h]
  · simp [not_lt_of_gt h, abs_of_pos h]

theorem pymin_eq_min (a b : ℚ) : pymin a b = min a b := by
  unfold pymin
  rcases lt_trichotomy b a with h | h | h
  · simp [h, min_eq_right h.le]
  · simp [h]
  · simp [not_lt_of_gt h, min_eq_left h.le]

theorem clip_le_hi (x lo hi : ℚ) (h : lo ≤ hi) : clip x lo hi ≤ hi := by
  unfold clip
  rw [pymax_eq_max, pymin_eq_min]
  exact max_le h (min_le_right x hi)

theorem lo_le_clip (x lo hi : ℚ) : lo ≤ clip x lo hi := by
  unfold clip
  rw [pymax_eq_max]
  exact le_max_left lo _

/-- C1: for non-negative velocities the core safe-distance function returns
exactly `d_reaction + d_stopping + min_safe_distance` with
`d_reaction = v_ego * reaction_time`,
`d_stopping = max 0 (v_ego^2/(2*max_decel) - v_pred^2/(2*max_decel))`,
and the result is therefore at least `min_safe_distance = 3`. -/
theorem core_safe_distance_formula_and_lower_bound (v_ego v_pred : ℚ)
    (hego : 0 ≤ v_ego) (hpred : 0 ≤ v_pred) :
    Core.calculate_safe_distance Core.defaultParams v_ego v_pred =
      v_ego * (1/5) + max 0 ((v_ego ^ 2) / (2 * 4) - (v_pred ^ 2) / (2 * 4)) + 3 ∧
    3 ≤ Core.calculate_safe_distance Core.defaultParams v_ego v_pred := by
  have hform : Core.calculate_safe_distance Core.defaultParams v_ego v_pred =
      v_ego * (1/5) + max 0 ((v_ego ^ 2) / (2 * 4) - (v_pred ^ 2) / (2 * 4)) + 3 := by
    simp only [Core.calculate_safe_distance, Core.defaultParams, pymax_eq_max]
  refine ⟨hform, ?_⟩
  rw [hform]
  have h1 : (0:ℚ) ≤ v_ego * (1/5) := by positivity
  have h2 : (0:ℚ) ≤ max 0 ((v_ego ^ 2) / (2 * 4) - (v_pred ^ 2) / (2 * 4)) :=
    le_max_left 0 _
  linarith

/-- Witness for `core_safe_distance_formula_and_lower_bound` at `v_ego = 20`, `v_pred = 18`. -/
theorem core_safe_distance_formula_witness :
    Core.calculate_safe_distance Core.defaultParams 20 18 =
      20 * (1/5) + max 0 ((20 ^ 2) / (2 * 4) - (18 ^ 2) / (2 * 4)) + 3 ∧
    3 ≤ Core.calculate_safe_distance Core.defaultParams 20 18 :=
  core_safe_distance_formula_and_lower_bound 20 18 (by norm_num) (by norm_num)

/-- C2 (counterexample): the safe-distance computation is not a single source of
truth.  At `v_ego = v_pred = 0` the verified controller and the safety monitor
return `3` while the simulation controller returns `10`. -/
theorem safe_distance_not_single_source :
    Monitor.calculate_safe_distance 0 0 = 3 ∧
    Core.calculate_safe_distance Core.defaultParams 0 0 = 3 ∧
    Sim.calculate_safe_distance 0 0 = 10 ∧
    Sim.calculate_safe_distance 0 0 ≠ Core.calculate_safe_distance Core.defaultParams 0 0 := by
  refine ⟨?_, ?_, ?_, ?_⟩ <;>
    norm_num [Monitor.calculate_safe_distance, Core.calculate_safe_distance,
      Core.defaultParams, Sim.calculate_safe_distance, Sim.minDistance,
      Sim.safeTimeGap, pymax]

/-- C2 (amended): the formally verified controller (with its default parameters)
and the runtime safety monitor compute the same safe distance for every pair of
velocities; the per-vehicle simulation controller uses a different formula
(`min_distance + max 0 v_ego * safe_time_gap`, independent of the predecessor
velocity) and disagrees with them. -/
theorem monitor_eq_core_safe_distance (v_ego v_pred : ℚ) :
    Monitor.calculate_safe_distance v_ego v_pred =
      Core.calculate_safe_distance Core.defaultParams v_ego v_pred := by
  rfl

/-- C5: `compute_action` evaluates its branches in a fixed precedence (first
applicable branch wins): emergency-ahead (whose actions carry
`emergency = true`), then the priority self-action, then yield-to-priority
(whose actions carry `priority_override = true`), then the Leader/Follower
default. -/
theorem compute_action_branch_precedence (ego : Sim.Vehicle)
    (vs : List Sim.Vehicle) (t : ℚ) :
    Sim.compute_action ego vs t =
      (match Sim.check_emergency_ahead ego vs t with
       | some a => a
       | none =>
         if ego.role = Sim.VehicleRole.priority then
           Sim.compute_priority_action ego vs
         else
           match Sim.check_priority_yield ego vs with
           | some a => a
           | none =>
             if ego.role = Sim.VehicleRole.leader then
               Sim.compute_leader_action ego
             else Sim.compute_follower_action ego vs) ∧
    (∀ a, Sim.check_emergency_ahead ego vs t = some a → a.emergency = true) ∧
    (∀ a, Sim.check_priority_yield ego vs = some a →
      a.priority_override = true) := by
  refine ⟨rfl, ?_, ?_⟩
  · intro a h
    unfold Sim.check_emergency_ahead at h
    rcases hfc : Sim.find_closest_vehicle ego vs with _ | ⟨c, d, rv⟩ <;>
      rw [hfc] at h
    · exact Option.noConfusion h
    · dsimp only at h
      by_cases hb : c.emergency_braking = true
      · rw [if_pos hb] at h
        by_cases hd : d < Sim.calculate_safe_distance ego.velocity rv * (3/2)
        · rw [if_pos hd] at h
          rcases he : Sim.evaluate_emergency_lane_change ego vs with _ | tl <;>
            rw [he] at h
          · cases h; rfl
          · cases h; rfl
        · rw [if_neg hd] at h
          exact Option.noConfusion h
      · rw [if_neg hb] at h
        exact Option.noConfusion h
  · intro a h
    unfold Sim.check_priority_yield at h
    repeat' split at h
    all_goals first
      | exact Option.noConfusion h
      | (cases h; rfl)

/-- The simulation controller's safe distance is always at least `min_distance`. -/
theorem sim_safe_distance_ge_ten (v rv : ℚ) :
    10 ≤ Sim.calculate_safe_distance v rv := by
  unfold Sim.calculate_safe_distance Sim.minDistance Sim.safeTimeGap
  rw [pymax_eq_max]
  have h : (0:ℚ) ≤ max 0 v := le_max_left 0 v
  nlinarith

/-- C6: the follower control law, reached when the yield-to-priority check does
not apply (`compute_action` only calls it in that situation): with no qualifying
vehicle ahead the action is zero acceleration with reason "No vehicle ahead";
with a predecessor at bumper distance `d` and `safe` the controller's safe
distance, the acceleration is the clamped proportional braking term when
`d < 0.9 * safe`, exactly `0` when `0.9 * safe ≤ d ≤ 1.3 * safe`, and the
clamped proportional closing term when `d > 1.3 * safe`. -/
theorem follower_hysteresis_band (ego : Sim.Vehicle) (vs : List Sim.Vehicle)
    (hyield : Sim.check_priority_yield ego vs = none) :
    (Sim.find_closest_vehicle ego vs = none →
      Sim.compute_follower_action ego vs =
        { acceleration := 0, reason := "No vehicle ahead" }) ∧
    (∀ closest distance relative_velocity,
      Sim.find_closest_vehicle ego vs = some (closest, distance, relative_velocity) →
      (distance < Sim.calculate_safe_distance ego.velocity relative_velocity * (9/10) →
        (Sim.compute_follower_action ego vs).acceleration =
          clip ((distance - Sim.calculate_safe_distance ego.velocity relative_velocity) * (3/10))
            Sim.maxBraking 0) ∧
      (Sim.calculate_safe_distance ego.velocity relative_velocity * (9/10) ≤ distance ∧
       distance ≤ Sim.calculate_safe_distance ego.velocity relative_velocity * (13/10) →
        (Sim.compute_follower_action ego vs).acceleration = 0) ∧
      (Sim.calculate_safe_distance ego.velocity relative_velocity * (13/10) < distance →
        (Sim.compute_follower_action ego vs).acceleration =
          clip ((distance - Sim.calculate_safe_distance ego.velocity relative_velocity) * (1/20))
            0 Sim.maxAcceleration)) := by
  constructor
  · intro hnone
    unfold Sim.compute_follower_action
    rw [hyield, hnone]
  · intro closest distance relative_velocity hfc
    refine ⟨?_, ?_, ?_⟩
    · intro hlt
      unfold Sim.compute_follower_action
      rw [hyield, hfc]
      simp only
      rw [if_pos hlt]
    · rintro ⟨hge, hle⟩
      unfold Sim.compute_follower_action
      rw [hyield, hfc]
      simp only
      rw [if_neg (by linarith), if_neg (by linarith)]
    · intro hgt
      unfold Sim.compute_follower_action
      rw [hyield, hfc]
      simp only
      have hs := sim_safe_distance_ge_ten ego.velocity relative_velocity
      rw [if_neg (by linarith), if_pos (by linarith)]

/-- Witness for `compute_action_branch_precedence`: in the emergency-ahead
scenario the returned action carries `emergency = true`; in the yield scenario
the yield action carries `priority_override = true`. -/
theorem compute_action_branch_precedence_witness :
    (Sim.compute_action egoE [egoE, brakerE] (1/2)).emergency = true ∧
    (Sim.compute_action egoY [priY, egoY] 0).priority_override = true := by
  constructor
  · obtain ⟨heq, hem, -⟩ := compute_action_branch_precedence egoE [egoE, brakerE] (1/2)
    cases hE : Sim.check_emergency_ahead egoE [egoE, brakerE] (1/2) with
    | none =>
      have hs : (Sim.check_emergency_ahead egoE [egoE, brakerE] (1/2)).isSome = true := by
        norm_num +decide [Sim.check_emergency_ahead, Sim.find_closest_vehicle,
          Sim.calculate_safe_distance, Sim.evaluate_emergency_lane_change,
          Sim.is_lane_clear_for_emergency, Sim.get_adjacent_lanes,
          Sim.lane_center_y, Sim.vehicleLength, Sim.minDistance, Sim.safeTimeGap,
          Sim.maxBraking, pymax, pymin, pyabs, List.foldl, List.all, List.find?,
          egoE, brakerE, baseVehicle]
      rw [hE] at hs
      exact absurd hs (by simp)
    | some a =>
      rw [heq, hE]
      exact hem a hE
  · obtain ⟨heq, -, hyl⟩ := compute_action_branch_precedence egoY [priY, egoY] 0
    have hEnone : Sim.check_emergency_ahead egoY [priY, egoY] 0 = none := by
      norm_num +decide [Sim.check_emergency_ahead, Sim.find_closest_vehicle,
        Sim.vehicleLength, pymax, pymin, pyabs, List.foldl,
        egoY, priY, baseVehicle]
    cases hY : Sim.check_priority_yield egoY [priY, egoY] with
    | none =>
      have hs : (Sim.check_priority_yield egoY [priY, egoY]).isSome = true := by
        norm_num +decide [Sim.check_priority_yield, Sim.yieldTrigger,
          Sim.find_yield_lane, Sim.find_priority_vehicle, Sim.sortByKey,
          Sim.insertByKey, Sim.is_lane_clear_for_yield, Sim.get_adjacent_lanes,
          Sim.lane_center_y, Sim.laneValue, pymax, pymin, pyabs,
          List.foldl, List.all, List.find?, egoY, priY, baseVehicle]
      rw [hY] at hs
      exact absurd hs (by simp)
    | some a =>
      rw [heq, hEnone]
      dsimp only
      rw [if_neg (by decide), hY]
      exact hyl a hY

/-- Witness for `follower_hysteresis_band`: with a predecessor inside the band
the follower holds zero acceleration; alone it reports "No vehicle ahead". -/
theorem follower_hysteresis_band_witness :
    (Sim.compute_follower_action egoG [egoG, aheadH]).acceleration = 0 ∧
    Sim.compute_follower_action egoG [egoG] =
      { acceleration := 0, reason := "No vehicle ahead" } := by
  have hy : Sim.check_priority_yield egoG [egoG, aheadH] = none := by
    norm_num +decide [Sim.check_priority_yield, Sim.yieldTrigger,
      pyabs, List.find?, egoG, aheadH, baseVehicle]
  have hy1 : Sim.check_priority_yield egoG [egoG] = none := by
    norm_num +decide [Sim.check_priority_yield, Sim.yieldTrigger,
      pyabs, List.find?, egoG, baseVehicle]
  obtain ⟨-, h2⟩ := follower_hysteresis_band egoG [egoG, aheadH] hy
  obtain ⟨h1, -⟩ := follower_hysteresis_band egoG [egoG] hy1
  constructor
  · have hfc : Sim.find_closest_vehicle egoG [egoG, aheadH] =
        some (aheadH, 111/2, 0) := by
      norm_num +decide [Sim.find_closest_vehicle, Sim.vehicleLength,
        pyabs, List.foldl, egoG, aheadH, baseVehicle]
    refine (h2 aheadH (111/2) 0 hfc).2.1 ⟨?_, ?_⟩ <;>
      norm_num [Sim.calculate_safe_distance, Sim.minDistance, Sim.safeTimeGap,
        pymax, egoG, baseVehicle]
  · exact h1 (by
      norm_num +decide [Sim.find_closest_vehicle, Sim.vehicleLength,
        pyabs, List.foldl, egoG, baseVehicle])

/-- The velocity stored by `update_position` is the clamped value. -/
theorem update_position_velocity (dt : ℚ) (v : Sim.Vehicle) :
    (Sim.update_position dt v).velocity =
      pymax 0 (pymin (v.velocity + v.acceleration * dt) 30) := by
  unfold Sim.update_position
  dsimp only
  split
  · split <;> rfl
  · rfl

/-- After any kinematic update the velocity lies in `[0, 30]`. -/
theorem update_velocity_in_range (dt : ℚ) (v : Sim.Vehicle) :
    0 ≤ (Sim.update_position dt v).velocity ∧
      (Sim.update_position dt v).velocity ≤ 30 := by
  rw [update_position_velocity, pymax_eq_max, pymin_eq_min]
  constructor
  · exact le_max_left 0 _
  · exact max_le (by norm_num) (min_le_right _ _)

/-- C8: velocity bounds invariant: after each kinematic update (and hence for
every vehicle after every `step()`), the velocity lies in `[0, 30]`, whatever
acceleration was commanded. -/
theorem velocity_bounds_invariant (dt : ℚ) (v : Sim.Vehicle) (s : Sim.SimState) :
    (0 ≤ (Sim.update_position dt v).velocity ∧
      (Sim.update_position dt v).velocity ≤ 30) ∧
    (∀ w ∈ (Sim.step s).vehicles, 0 ≤ w.velocity ∧ w.velocity ≤ 30) := by
  refine ⟨update_velocity_in_range dt v, ?_⟩
  intro w hw
  have hstep : (Sim.step s).vehicles =
      ((Sim.controller_loop s.time s.vehicles
        (s.vehicles.map (fun u => u.id))).2).map (Sim.update_position s.dt) := rfl
  rw [hstep, List.mem_map] at hw
  obtain ⟨u, -, rfl⟩ := hw
  exact update_velocity_in_range s.dt u

/-- C7: lane-change state machine: `initiate_lane_change` is a no-op while a
change is in flight; a fresh initiation records the previous lane, sets the
(already final) lane to the target and resets progress; while in progress,
`update_position` advances progress by `lane_change_speed * dt` (monotonically
non-decreasing for `dt ≥ 0`) and the transition to the stable state happens
exactly when the advanced progress reaches `1`, clearing the in-progress flag,
resetting progress to `0`, keeping the lane at the target and snapping `y` to
the target lane's centre. -/
theorem lane_change_state_machine (v : Sim.Vehicle) (target : Sim.Lane)
    (dt : ℚ) (hdt : 0 ≤ dt) :
    (v.is_changing_lane = true → Sim.initiate_lane_change v target = v) ∧
    (v.is_changing_lane = false → target ≠ v.lane →
      (Sim.initiate_lane_change v target).lane = target ∧
      (Sim.initiate_lane_change v target).is_changing_lane = true ∧
      (Sim.initiate_lane_change v target).lane_change_progress = 0 ∧
      (Sim.initiate_lane_change v target).previous_lane = v.lane) ∧
    (v.is_changing_lane = true →
      (1 ≤ v.lane_change_progress + Sim.laneChangeSpeed * dt →
        (Sim.update_position dt v).is_changing_lane = false ∧
        (Sim.update_position dt v).lane_change_progress = 0 ∧
        (Sim.update_position dt v).lane = v.lane ∧
        (Sim.update_position dt v).y = v.lane_target_y) ∧
      (v.lane_change_progress + Sim.laneChangeSpeed * dt < 1 →
        (Sim.update_position dt v).is_changing_lane = true ∧
        (Sim.update_position dt v).lane_change_progress =
          v.lane_change_progress + Sim.laneChangeSpeed * dt ∧
        v.lane_change_progress ≤ (Sim.update_position dt v).lane_change_progress ∧
        (Sim.update_position dt v).lane = v.lane)) := by
  refine ⟨?_, ?_, ?_⟩
  · intro h
    unfold Sim.initiate_lane_change
    rw [if_neg]
    simp [h]
  · intro h hne
    unfold Sim.initiate_lane_change
    rw [if_pos ⟨by simp [h], hne⟩]
    exact ⟨rfl, rfl, rfl, rfl⟩
  · intro h
    constructor
    · intro hfin
      unfold Sim.update_position
      rw [if_pos h]
      dsimp only
      rw [if_pos (by exact hfin)]
      exact ⟨rfl, rfl, rfl, rfl⟩
    · intro hcont
      unfold Sim.update_position
      rw [if_pos h]
      dsimp only
      rw [if_neg (by exact not_le.mpr hcont)]
      refine ⟨h, rfl, ?_, rfl⟩
      have hsp : (0:ℚ) ≤ Sim.laneChangeSpeed * dt := by
        unfold Sim.laneChangeSpeed
        linarith
      dsimp only
      linarith

/-- Witness for `lane_change_state_machine`: a re-initiation mid-change is a
no-op; with `dt = 0.1` progress advances `0.5 → 0.7`; with `dt = 0.5` the
change completes and progress resets. -/
theorem lane_change_state_machine_witness :
    Sim.initiate_lane_change vC Sim.Lane.right = vC ∧
    (Sim.update_position (1/10) vC).is_changing_lane = true ∧
    (Sim.update_position (1/10) vC).lane_change_progress = 7/10 ∧
    (Sim.update_position (1/2) vC).is_changing_lane = false ∧
    (Sim.update_position (1/2) vC).lane_change_progress = 0 := by
  obtain ⟨h1, -, h3⟩ := lane_change_state_machine vC Sim.Lane.right (1/10) (by norm_num)
  obtain ⟨-, -, h3h⟩ := lane_change_state_machine vC Sim.Lane.right (1/2) (by norm_num)
  have hin : vC.is_changing_lane = true := rfl
  have hcont := (h3 hin).2 (by norm_num [vC, baseVehicle, Sim.laneChangeSpeed])
  have hfin := (h3h hin).1 (by norm_num [vC, baseVehicle, Sim.laneChangeSpeed])
  refine ⟨h1 hin, hcont.1, ?_, hfin.1, hfin.2.1⟩
  rw [hcont.2.1]
  norm_num [vC, baseVehicle, Sim.laneChangeSpeed]

/-- Witness for `velocity_bounds_invariant`: the vehicle produced by one
concrete `step()` stays within the velocity bounds. -/
theorem velocity_bounds_invariant_witness :
    (Sim.step simS0).vehicles = [wG] ∧ 0 ≤ wG.velocity ∧ wG.velocity ≤ 30 := by
  have hv : (Sim.step simS0).vehicles = [wG] := by
    norm_num +decide [Sim.step, Sim.step_record, Sim.controller_loop,
      Sim.apply_action, Sim.update_position, Sim.initiate_lane_change,
      Sim.compute_action, Sim.check_emergency_ahead, Sim.find_closest_vehicle,
      Sim.check_priority_yield, Sim.yieldTrigger, Sim.compute_follower_action,
      Sim.calculate_safe_distance, Sim.minDistance, Sim.safeTimeGap,
      Sim.vehicleLength, Sim.laneChangeSpeed, pymax, pymin, pyabs, clip,
      List.foldl, List.find?, simS0, egoG, wG, baseVehicle]
  have hb := (velocity_bounds_invariant (1/10) wG simS0).2 wG
    (by rw [hv]; exact List.mem_singleton.mpr rfl)
  exact ⟨hv, hb⟩

/-- A simulation whose emergency trigger has already fired refuses a second
trigger and leaves the state unchanged. -/
theorem trigger_emergency_already_triggered (s : Sim.SimState)
    (h : s.emergency_triggered = true) :
    Sim.trigger_emergency s = some (false, s) := by
  unfold Sim.trigger_emergency
  rw [if_neg (by simp [h])]

/-- A successful `trigger_emergency()` sets the `emergency_triggered` flag. -/
theorem trigger_emergency_success_flag (s s1 : Sim.SimState)
    (h : Sim.trigger_emergency s = some (true, s1)) :
    s1.emergency_triggered = true := by
  unfold Sim.trigger_emergency at h
  by_cases hc : ((s.emergency_vehicle.elim false (fun vid => vid != "")) &&
      !s.emergency_triggered) = true
  · rw [if_pos hc] at h
    rcases hev : s.emergency_vehicle with _ | vid <;> rw [hev] at h
    · exact Option.noConfusion h
    · dsimp only at h
      rcases hfind : s.vehicles.find? (fun v => v.id = vid) with _ | u <;>
        rw [hfind] at h
      · exact Option.noConfusion h
      · cases h
        rfl
  · rw [if_neg hc] at h
    simp at h

/-- A simulation that has already assigned a priority vehicle ignores any
further `set_priority_vehicle` call. -/
theorem set_priority_vehicle_sticky (s : Sim.SimState) (vid : String)
    (h : s.priority_added = true) :
    Sim.set_priority_vehicle s vid = s := by
  unfold Sim.set_priority_vehicle
  rw [if_neg (by simp [h])]

/-- C9: idempotency of the external triggers: after a successful
`trigger_emergency()` a second call returns `False` and leaves the state
unchanged; once `set_priority_vehicle` has assigned the priority role, any
further call is a no-op. -/
theorem external_triggers_idempotent (s : Sim.SimState) :
    (∀ s1, Sim.trigger_emergency s = some (true, s1) →
      Sim.trigger_emergency s1 = some (false, s1)) ∧
    (∀ vid vid2, (Sim.set_priority_vehicle s vid).priority_added = true →
      Sim.set_priority_vehicle (Sim.set_priority_vehicle s vid) vid2 =
        Sim.set_priority_vehicle s vid) := by
  constructor
  · intro s1 h
    exact trigger_emergency_already_triggered s1 (trigger_emergency_success_flag s s1 h)
  · intro vid vid2 h
    exact set_priority_vehicle_sticky (Sim.set_priority_vehicle s vid) vid2 h

/-- Witness for `external_triggers_idempotent` on a concrete simulation. -/
theorem external_triggers_idempotent_witness :
    Sim.trigger_emergency simE1 = some (false, simE1) ∧
    Sim.set_priority_vehicle (Sim.set_priority_vehicle simE0 "g") "g" =
      Sim.set_priority_vehicle simE0 "g" := by
  have h1 : Sim.trigger_emergency simE0 = some (true, simE1) := by
    norm_num +decide [Sim.trigger_emergency, Sim.trigger_emergency_braking,
      List.find?, Option.elim, simE0, simE1, simS0, egoG, egoGbraked, baseVehicle]
  refine ⟨(external_triggers_idempotent simE0).1 simE1 h1, ?_⟩
  refine (external_triggers_idempotent simE0).2 "g" "g" ?_
  norm_num +decide [Sim.set_priority_vehicle, List.any, simE0, simS0,
    egoG, baseVehicle]

/-- `apply_action` only writes the acceleration and lane-change fields. -/
theorem apply_action_controlProj (v : Sim.Vehicle) (a : Sim.Action) :
    Sim.controlProj (Sim.apply_action v a) = Sim.controlProj v := by
  unfold Sim.apply_action Sim.initiate_lane_change Sim.controlProj
  dsimp only
  repeat' split
  all_goals rfl

/-- `apply_action` stores the action's acceleration. -/
theorem apply_action_acceleration (v : Sim.Vehicle) (a : Sim.Action) :
    (Sim.apply_action v a).acceleration = a.acceleration := by
  unfold Sim.apply_action Sim.initiate_lane_change
  dsimp only
  repeat' split
  all_goals rfl

/-- The controller loop never writes id, position, velocity or the emergency
fields of any vehicle. -/
theorem controller_loop_controlProj (t : ℚ) (order : List String)
    (vs : List Sim.Vehicle) :
    ((Sim.controller_loop t vs order).2).map Sim.controlProj =
      vs.map Sim.controlProj := by
  induction order generalizing vs with
  | nil => rfl
  | cons vid rest ih =>
    unfold Sim.controller_loop
    rcases hf : vs.find? (fun v => v.id = vid) with _ | ego <;> rw [hf]
    · exact ih vs
    · dsimp only
      rw [ih, List.map_map]
      apply List.map_congr_left
      intro w _
      dsimp only [Function.comp]
      split
      · exact apply_action_controlProj w _
      · rfl

/-- `update_position` never writes the id or the emergency fields. -/
theorem update_position_emergencyProj (dt : ℚ) (v : Sim.Vehicle) :
    Sim.emergencyProj (Sim.update_position dt v) = Sim.emergencyProj v := by
  unfold Sim.update_position Sim.emergencyProj
  dsimp only
  repeat' split
  all_goals rfl

/-- One `step()` preserves every vehicle's id, emergency-braking flag and
emergency start time. -/
theorem step_emergencyProj (s : Sim.SimState) :
    ((Sim.step s).vehicles).map Sim.emergencyProj =
      s.vehicles.map Sim.emergencyProj := by
  have h1 : (Sim.step s).vehicles =
      ((Sim.controller_loop s.time s.vehicles
        (s.vehicles.map (fun v => v.id))).2).map (Sim.update_position s.dt) := rfl
  rw [h1, List.map_map]
  have h2 : Sim.emergencyProj ∘ Sim.update_position s.dt = Sim.emergencyProj := by
    funext v
    exact update_position_emergencyProj s.dt v
  rw [h2]
  have h3 : Sim.emergencyProj = Sim.controlToEmergency ∘ Sim.controlProj := rfl
  rw [h3, ← List.map_map, ← List.map_map, controller_loop_controlProj]

/-- C10: once set, the `emergency_braking` flag and `emergency_start_time` of
every vehicle survive any number of `step()` calls unchanged (controller
actions and kinematic updates never write them); only `reset()`, which rebuilds
the vehicles, removes them. -/
theorem emergency_braking_flag_permanent (s : Sim.SimState) (n : ℕ) :
    ((Sim.step^[n] s).vehicles).map Sim.emergencyProj =
      s.vehicles.map Sim.emergencyProj := by
  induction n generalizing s with
  | zero => rfl
  | succ k ih =>
    rw [Function.iterate_succ_apply]
    rw [ih (Sim.step s), step_emergencyProj]

/-- C3 is violated by the code: the controller loop passes the live vehicle
objects to every controller, so a lane change initiated by the priority
vehicle `"p"` earlier in the same tick changes which lane the follower `"f"`
yields into.  Running the controllers in order `p, f, b` makes `"f"` target
the right lane; in order `f, p, b` it targets the left lane, so the action map
depends on the iteration order. -/
theorem step_actions_depend_on_controller_order :
    (((Sim.controller_loop 0 [priY, egoY, bC3] ["p", "f", "b"]).1.find?
        (fun pr => pr.1 = "f")).map (fun pr => pr.2.target_lane)) =
      some (some Sim.Lane.right) ∧
    (((Sim.controller_loop 0 [priY, egoY, bC3] ["f", "p", "b"]).1.find?
        (fun pr => pr.1 = "f")).map (fun pr => pr.2.target_lane)) =
      some (some Sim.Lane.left) := by
  constructor <;>
    norm_num +decide [Sim.controller_loop, Sim.apply_action,
      Sim.initiate_lane_change, Sim.compute_action, Sim.check_emergency_ahead,
      Sim.find_closest_vehicle, Sim.evaluate_emergency_lane_change,
      Sim.is_lane_clear_for_emergency, Sim.compute_priority_action,
      Sim.evaluate_lane_change, Sim.is_lane_clear, Sim.check_priority_yield,
      Sim.yieldTrigger, Sim.find_yield_lane, Sim.find_priority_vehicle,
      Sim.sortByKey, Sim.insertByKey, Sim.is_lane_clear_for_yield,
      Sim.compute_follower_action, Sim.compute_leader_action,
      Sim.get_adjacent_lanes, Sim.lane_center_y, Sim.laneValue,
      Sim.calculate_safe_distance, Sim.minDistance, Sim.safeTimeGap,
      Sim.maxBraking, Sim.maxAcceleration, Sim.vehicleLength,
      pymax, pymin, pyabs, clip, List.foldl, List.all, List.find?,
      priY, egoY, bC3, baseVehicle]

/-- Every action of `check_emergency_ahead` commands acceleration `≤ 2`. -/
theorem check_emergency_ahead_acc_le (ego : Sim.Vehicle) (vs : List Sim.Vehicle)
    (t : ℚ) (a : Sim.Action) (h : Sim.check_emergency_ahead ego vs t = some a) :
    a.acceleration ≤ 2 := by
  unfold Sim.check_emergency_ahead at h
  rcases hfc : Sim.find_closest_vehicle ego vs with _ | ⟨c, d, rv⟩ <;>
    rw [hfc] at h
  · exact Option.noConfusion h
  · dsimp only at h
    by_cases hb : c.emergency_braking = true
    · rw [if_pos hb] at h
      by_cases hd : d < Sim.calculate_safe_distance ego.velocity rv * (3/2)
      · rw [if_pos hd] at h
        rcases he : Sim.evaluate_emergency_lane_change ego vs with _ | tl <;>
          rw [he] at h
        · cases h
          have := pymin_eq_min Sim.maxBraking
            (-6 * if t - c.emergency_start_time < 1 then 2 else 1)
          dsimp only
          rw [this]
          calc min Sim.maxBraking (-6 * if t - c.emergency_start_time < 1 then 2 else 1) ≤
              Sim.maxBraking := min_le_left _ _
            _ ≤ 2 := by unfold Sim.maxBraking; norm_num
        · cases h
          norm_num
      · rw [if_neg hd] at h
        exact Option.noConfusion h
    · rw [if_neg hb] at h
      exact Option.noConfusion h

/-- Every action of `check_priority_yield` commands acceleration `≤ 2`. -/
theorem check_priority_yield_acc_le (ego : Sim.Vehicle) (vs : List Sim.Vehicle)
    (a : Sim.Action) (h : Sim.check_priority_yield ego vs = some a) :
    a.acceleration ≤ 2 := by
  unfold Sim.check_priority_yield at h
  repeat' split at h
  all_goals first
    | exact Option.noConfusion h
    | (cases h; norm_num)

/-- The priority self-action commands acceleration `≤ 2`. -/
theorem compute_priority_action_acc_le (ego : Sim.Vehicle)
    (vs : List Sim.Vehicle) :
    (Sim.compute_priority_action ego vs).acceleration ≤ 2 := by
  unfold Sim.compute_priority_action
  dsimp only
  repeat' split
  all_goals dsimp only
  · exact le_trans (clip_le_hi _ _ _ (by norm_num)) (by norm_num)
  · norm_num
  · exact le_trans (clip_le_hi _ _ _ (by norm_num)) (by norm_num)
  · exact le_trans (clip_le_hi _ _ _ (by norm_num)) (by norm_num)

/-- The leader action commands acceleration `≤ 2`. -/
theorem compute_leader_action_acc_le (ego : Sim.Vehicle) :
    (Sim.compute_leader_action ego).acceleration ≤ 2 := by
  unfold Sim.compute_leader_action
  exact le_trans (clip_le_hi _ _ _ (by norm_num)) (by norm_num)

/-- The follower action commands acceleration `≤ 2`. -/
theorem compute_follower_action_acc_le (ego : Sim.Vehicle)
    (vs : List Sim.Vehicle) :
    (Sim.compute_follower_action ego vs).acceleration ≤ 2 := by
  unfold Sim.compute_follower_action
  rcases hy : Sim.check_priority_yield ego vs with _ | ay
  · dsimp only
    rcases hfc : Sim.find_closest_vehicle ego vs with _ | ⟨c, d, rv⟩
    · norm_num
    · dsimp only
      repeat' split
      · exact le_trans (clip_le_hi _ _ _ (by unfold Sim.maxBraking; norm_num))
          (by norm_num)
      · exact le_trans (clip_le_hi _ _ _ (by unfold Sim.maxAcceleration; norm_num))
          (by unfold Sim.maxAcceleration; norm_num)
      · norm_num
  · dsimp only
    exact check_priority_yield_acc_le ego vs ay hy

/-- C4 accessory: every action computed by the controller commands an
acceleration of at most the normal bound `2`. -/
theorem compute_action_acc_le (ego : Sim.Vehicle) (vs : List Sim.Vehicle)
    (t : ℚ) : (Sim.compute_action ego vs t).acceleration ≤ 2 := by
  unfold Sim.compute_action
  rcases he : Sim.check_emergency_ahead ego vs t with _ | ae
  · dsimp only
    by_cases hp : ego.role = Sim.VehicleRole.priority
    · rw [if_pos hp]
      exact compute_priority_action_acc_le ego vs
    · rw [if_neg hp]
      rcases hy : Sim.check_priority_yield ego vs with _ | ay
      · dsimp only
        by_cases hl : ego.role = Sim.VehicleRole.leader
        · rw [if_pos hl]
          exact compute_leader_action_acc_le ego
        · rw [if_neg hl]
          exact compute_follower_action_acc_le ego vs
      · dsimp only
        exact check_priority_yield_acc_le ego vs ay hy
  · dsimp only
    exact check_emergency_ahead_acc_le ego vs t ae he

/-- The position stored by `update_position` advances by the clamped velocity
times `dt`. -/
theorem update_position_x (dt : ℚ) (v : Sim.Vehicle) :
    (Sim.update_position dt v).x =
      v.x + pymax 0 (pymin (v.velocity + v.acceleration * dt) 30) * dt := by
  unfold Sim.update_position
  dsimp only
  repeat' split
  all_goals rfl

/-- The controller loop never changes any vehicle's position or velocity. -/
theorem controller_loop_posVel (t : ℚ) (order : List String)
    (vs : List Sim.Vehicle) :
    ((Sim.controller_loop t vs order).2).map Sim.posVel = vs.map Sim.posVel := by
  have h : Sim.posVel = Sim.controlToPosVel ∘ Sim.controlProj := rfl
  rw [h, ← List.map_map, ← List.map_map, controller_loop_controlProj]

/-- Every vehicle after the controller loop shares position and velocity with
an input vehicle. -/
theorem controller_loop_mem_posVel (t : ℚ) (order : List String)
    (vs : List Sim.Vehicle) :
    ∀ w ∈ (Sim.controller_loop t vs order).2,
      ∃ u ∈ vs, Sim.posVel u = Sim.posVel w := by
  intro w hw
  have h1 : Sim.posVel w ∈ ((Sim.controller_loop t vs order).2).map Sim.posVel :=
    List.mem_map_of_mem _ hw
  rw [controller_loop_posVel] at h1
  obtain ⟨u, hu, he⟩ := List.mem_map.mp h1
  exact ⟨u, hu, he⟩

/-- The controller loop preserves the pairwise safe-gap relation (it depends on
positions and velocities only). -/
theorem controller_loop_pairwise_gapSafe (t : ℚ) (order : List String)
    (vs : List Sim.Vehicle) (h : vs.Pairwise Sim.gapSafe) :
    ((Sim.controller_loop t vs order).2).Pairwise Sim.gapSafe := by
  have h1 : (vs.map Sim.posVel).Pairwise Sim.gapSafePair :=
    List.pairwise_map.mpr (h.imp (fun hab => hab))
  rw [← controller_loop_posVel t order vs] at h1
  exact (List.pairwise_map.mp h1).imp (fun hab => hab)

/-- The controller loop commands accelerations of at most `2` when the input
accelerations already satisfy that bound. -/
theorem controller_loop_acc_le (t : ℚ) (order : List String)
    (vs : List Sim.Vehicle) (h : ∀ v ∈ vs, v.acceleration ≤ 2) :
    ∀ v ∈ (Sim.controller_loop t vs order).2, v.acceleration ≤ 2 := by
  induction order generalizing vs with
  | nil => exact h
  | cons vid rest ih =>
    unfold Sim.controller_loop
    rcases hf : vs.find? (fun v => v.id = vid) with _ | ego <;> rw [hf]
    · exact ih vs h
    · dsimp only
      apply ih
      intro w hw
      obtain ⟨u, hu, rfl⟩ := List.mem_map.mp hw
      split
      · rw [apply_action_acceleration]
        exact compute_action_acc_le ego vs t
      · exact h u hu

/-- One-pair geometry: a pair with a maintained safe bumper gap, non-negative
velocities and accelerations within the bounds cannot overlap after one
kinematic update with `dt = 0.1`. -/
theorem no_overlap_after_update (a b : Sim.Vehicle)
    (ha0 : 0 ≤ a.velocity) (hb0 : 0 ≤ b.velocity)
    (ha2 : a.acceleration ≤ 2) (hb2 : b.acceleration ≤ 2)
    (hgap : Sim.gapSafe a b) :
    Sim.vehiclesOverlap (Sim.update_position (1/10) a)
      (Sim.update_position (1/10) b) = false := by
  have hax := update_position_x (1/10) a
  have hbx := update_position_x (1/10) b
  set va := pymax 0 (pymin (a.velocity + a.acceleration * (1/10)) 30) with hva
  set vb := pymax 0 (pymin (b.velocity + b.acceleration * (1/10)) 30) with hvb
  have hva0 : 0 ≤ va := by rw [hva, pymax_eq_max]; exact le_max_left _ _
  have hvb0 : 0 ≤ vb := by rw [hvb, pymax_eq_max]; exact le_max_left _ _
  have hva2 : va ≤ a.velocity + 1/5 := by
    rw [hva, pymax_eq_max, pymin_eq_min]
    apply max_le (by linarith)
    calc min (a.velocity + a.acceleration * (1/10)) 30 ≤
        a.velocity + a.acceleration * (1/10) := min_le_left _ _
      _ ≤ a.velocity + 1/5 := by linarith
  have hvb2 : vb ≤ b.velocity + 1/5 := by
    rw [hvb, pymax_eq_max, pymin_eq_min]
    apply max_le (by linarith)
    calc min (b.velocity + b.acceleration * (1/10)) 30 ≤
        b.velocity + b.acceleration * (1/10) := min_le_left _ _
      _ ≤ b.velocity + 1/5 := by linarith
  have hsafe : ∀ u w : ℚ, 0 ≤ u →
      u * (1/5) + 3 ≤ Core.calculate_safe_distance Core.defaultParams u w := by
    intro u w hu
    have hform : Core.calculate_safe_distance Core.defaultParams u w =
        u * (1/5) + max 0 ((u ^ 2) / (2 * 4) - (w ^ 2) / (2 * 4)) + 3 := by
      simp only [Core.calculate_safe_distance, Core.defaultParams, pymax_eq_max]
    rw [hform]
    have hm := le_max_left (0:ℚ) ((u ^ 2) / (2 * 4) - (w ^ 2) / (2 * 4))
    linarith
  have hmulA := mul_le_mul_of_nonneg_right hva2 (by norm_num : (0:ℚ) ≤ 1/10)
  have hmulB := mul_le_mul_of_nonneg_right hvb2 (by norm_num : (0:ℚ) ≤ 1/10)
  have hposA := mul_nonneg hva0 (by norm_num : (0:ℚ) ≤ 1/10)
  have hposB := mul_nonneg hvb0 (by norm_num : (0:ℚ) ≤ 1/10)
  rcases hgap with hcase | hcase
  · have hsd := hsafe a.velocity b.velocity ha0
    unfold Sim.vehicleLength at hcase
    dsimp only at hcase
    have hdist : (Sim.update_position (1/10) b).x -
        (Sim.update_position (1/10) a).x ≥ 61/10 := by
      rw [hax, hbx]
      linarith
    unfold Sim.vehiclesOverlap
    dsimp only
    have hle : ¬((Sim.update_position (1/10) a).x + Sim.vehicleLength/2 + 3/10 >
        (Sim.update_position (1/10) b).x - Sim.vehicleLength/2 - 3/10) := by
      unfold Sim.vehicleLength
      apply not_lt.mpr
      linarith
    rw [decide_eq_false hle]
    simp
  · have hsd := hsafe b.velocity a.velocity hb0
    unfold Sim.vehicleLength at hcase
    dsimp only at hcase
    have hdist : (Sim.update_position (1/10) a).x -
        (Sim.update_position (1/10) b).x ≥ 61/10 := by
      rw [hax, hbx]
      linarith
    unfold Sim.vehiclesOverlap
    dsimp only
    have hle : ¬((Sim.update_position (1/10) a).x - Sim.vehicleLength/2 - 3/10 <
        (Sim.update_position (1/10) b).x + Sim.vehicleLength/2 + 3/10) := by
      unfold Sim.vehicleLength
      apply not_lt.mpr
      linarith
    rw [decide_eq_false hle]
    simp

/-- A pairwise non-overlapping vehicle list yields no collision pairs. -/
theorem check_collisions_eq_nil (l : List Sim.Vehicle)
    (h : l.Pairwise (fun a b => Sim.vehiclesOverlap a b = false)) :
    Sim.check_collisions l = [] := by
  induction l with
  | nil => rfl
  | cons v rest ih =>
    rw [List.pairwise_cons] at h
    unfold Sim.check_collisions
    rw [List.filter_eq_nil_iff.mpr (fun w hw => by simp [h.1 w hw]), ih h.2]
    rfl

/-- C4 (amended): one-step collision freedom: if at the previous tick every
pair of vehicles kept a bumper-to-bumper gap of at least the core safe
distance (`gapSafe`), all velocities were non-negative and all accelerations
lay within the `[-8, 2]` bounds, then the `StepRecord` produced by the next
`step()` (with the default `dt = 0.1`) reports no collisions. -/
theorem one_step_collision_freedom (s : Sim.SimState)
    (hdt : s.dt = 1/10)
    (hvel : ∀ v ∈ s.vehicles, 0 ≤ v.velocity)
    (hacc : ∀ v ∈ s.vehicles, -8 ≤ v.acceleration ∧ v.acceleration ≤ 2)
    (hgap : s.vehicles.Pairwise Sim.gapSafe) :
    (Sim.step_record s).collisions = [] := by
  have hrec : (Sim.step_record s).collisions =
      Sim.check_collisions
        (((Sim.controller_loop s.time s.vehicles
            (s.vehicles.map (fun v => v.id))).2).map
          (Sim.update_position s.dt)) := rfl
  rw [hrec, hdt]
  apply check_collisions_eq_nil
  rw [List.pairwise_map]
  have hP := controller_loop_pairwise_gapSafe s.time
    (s.vehicles.map (fun v => v.id)) s.vehicles hgap
  have hV : ∀ w ∈ (Sim.controller_loop s.time s.vehicles
      (s.vehicles.map (fun v => v.id))).2, 0 ≤ w.velocity := by
    intro w hw
    obtain ⟨u, hu, he⟩ := controller_loop_mem_posVel s.time
      (s.vehicles.map (fun v => v.id)) s.vehicles w hw
    have huw : u.velocity = w.velocity := congrArg Prod.snd he
    rw [← huw]
    exact hvel u hu
  have hA := controller_loop_acc_le s.time (s.vehicles.map (fun v => v.id))
    s.vehicles (fun v hv => (hacc v hv).2)
  refine List.Pairwise.imp_of_mem ?_ hP
  intro a b ha hb hg
  exact no_overlap_after_update a b (hV a ha) (hV b hb) (hA a ha) (hA b hb) hg

/-- C4 (counterexample): with "actual gap" read as the safety monitor's
`front.position - rear.position`, the claim fails: two stationary vehicles
whose centre distance equals the safe distance `3` satisfy every hypothesis
(gap `≥` safe distance, accelerations within bounds), yet the next `step()`
reports a collision, because a centre gap of `3` is less than a car length. -/
theorem collision_freedom_claim_counterexample :
    Core.calculate_safe_distance Core.defaultParams
        cxRear.velocity cxFront.velocity ≤ cxFront.x - cxRear.x ∧
    (-8 ≤ cxRear.acceleration ∧ cxRear.acceleration ≤ 2) ∧
    (-8 ≤ cxFront.acceleration ∧ cxFront.acceleration ≤ 2) ∧
    (Sim.step_record simC4).collisions = [("r", "q")] := by
  refine ⟨?_, ?_, ?_, ?_⟩ <;>
    norm_num +decide [Sim.step_record, Sim.controller_loop, Sim.apply_action,
      Sim.initiate_lane_change, Sim.update_position, Sim.compute_action,
      Sim.check_emergency_ahead, Sim.find_closest_vehicle,
      Sim.check_priority_yield, Sim.yieldTrigger, Sim.compute_follower_action,
      Sim.compute_leader_action, Sim.check_collisions, Sim.vehiclesOverlap,
      Sim.calculate_safe_distance, Sim.minDistance, Sim.safeTimeGap,
      Sim.vehicleLength, Sim.vehicleWidth, Sim.laneChangeSpeed,
      Core.calculate_safe_distance, Core.defaultParams,
      pymax, pymin, pyabs, clip, List.foldl, List.find?,
      simC4, cxRear, cxFront, baseVehicle]

/-- Witness for `one_step_collision_freedom` on a concrete simulation. -/
theorem one_step_collision_freedom_witness :
    (Sim.step_record simW4).collisions = [] := by
  apply one_step_collision_freedom simW4 rfl
  · intro v hv
    have hv2 : v ∈ [baseVehicle, swFront] := hv
    fin_cases hv2 <;> norm_num [baseVehicle, swFront]
  · intro v hv
    have hv2 : v ∈ [baseVehicle, swFront] := hv
    fin_cases hv2 <;> norm_num [baseVehicle, swFront]
  · show ([baseVehicle, swFront]).Pairwise Sim.gapSafe
    refine List.pairwise_cons.mpr ⟨?_, List.pairwise_singleton _ _⟩
    intro b hb
    rw [List.mem_singleton.mp hb]
    left
    norm_num [Sim.gapSafePair, Core.calculate_safe_distance, Core.defaultParams,
      pymax, Sim.vehicleLength, baseVehicle, swFront]

